import Mathlib

/-!
Shallow embedding of the Flaskr tutorial blog application
(`flaskr/auth.py`, `flaskr/blog.py`) and verification of its
specification claims.

The database is modelled as in-memory lists of rows, the session as the
single `user_id` slot the code uses, and a handler's outcome as
`Except Nat _` where `.error s` is an HTTP error response with status `s`
(raised by `abort(...)` or by a missing form key, which werkzeug turns
into a 400).  Flask's `redirect(...)` uses its default status code, 302.
Password hashing is an external collaborator and is passed in as the
functions `gen` (generate_password_hash) and `check`
(check_password_hash hash password).
-/

/-- A row of the `user` table: `id`, `username`, and the stored password hash. -/
structure UserRow where
  id : Nat
  username : String
  password : String
deriving Repr, DecidableEq

/-- A row of the `post` table. -/
structure PostRow where
  id : Nat
  title : String
  body : String
  created : Nat
  author_id : Nat
deriving Repr, DecidableEq

/-- The columns produced by
`SELECT p.id, title, body, created, author_id, username FROM post p JOIN user u ON p.author_id = u.id`. -/
structure PostWithUser where
  id : Nat
  title : String
  body : String
  created : Nat
  author_id : Nat
  username : String
deriving Repr, DecidableEq

/-- The persistence store: the two tables, plus the store clock used for the
`created DEFAULT now` column on insert. -/
structure DB where
  users : List UserRow
  posts : List PostRow
  now : Nat
deriving Repr, DecidableEq

/-- The session dictionary; the application only ever stores the key
`user_id` in it. -/
structure Session where
  user_id : Option Nat
deriving Repr, DecidableEq

/-- A normal (non-error) HTTP response: either a rendered template together
with the messages flashed during the request, or a redirect. -/
inductive Response where
  | render (template : String) (flashed : List String)
  | redirect (location : String) (status : Nat)
deriving Repr, DecidableEq

/-- `request.form[k]`: a missing key raises `BadRequestKeyError`, which
werkzeug surfaces as a 400 response; a present key yields its value. -/
def formGet (form : List (String × String)) (k : String) : Except Nat String :=
  match form.lookup k with
  | none => .error 400
  | some v => .ok v

/-- Store-assigned primary key for a fresh row (one more than the largest
id in use, as sqlite assigns rowids). -/
def nextId (ids : List Nat) : Nat :=
  ids.foldr (fun a b => max a b) 0 + 1

/-- `SELECT * FROM user WHERE username = ?` with `fetchone()`. -/
def findUserByName (db : DB) (username : String) : Option UserRow :=
  db.users.find? (fun u => u.username = username)

/-- `SELECT * FROM user WHERE id = ?` with `fetchone()`. -/
def findUserById (db : DB) (uid : Nat) : Option UserRow :=
  db.users.find? (fun u => u.id = uid)

/-- `INSERT INTO user (username, password) VALUES (?, ?)` followed by
`commit()`; the store raises `IntegrityError` (modelled as `.error ()`)
when the UNIQUE constraint on `username` is violated, writing nothing. -/
def insertUser (db : DB) (username password : String) : Except Unit DB :=
  if db.users.any (fun u => u.username = username) then
    .error ()
  else
    .ok { db with
          users := db.users ++ [⟨nextId (db.users.map (fun u => u.id)), username, password⟩] }

/-- `auth.register`, POST branch (`flaskr/auth.py`).  Reads both form
fields (raising 400 if a key is absent), validates username then password,
then attempts the insert, translating `IntegrityError` into the
duplicate-username message.  The session is untouched. -/
def register_post (gen : String → String) (db : DB) (sess : Session)
    (form : List (String × String)) : Except Nat (DB × Session × Response) :=
  match formGet form "username" with
  | .error s => .error s
  | .ok username =>
    match formGet form "password" with
    | .error s => .error s
    | .ok password =>
      let error : Option String :=
        if username = "" then some "Username is required."
        else if password = "" then some "Password is required."
        else none
      match error with
      | none =>
        match insertUser db username (gen password) with
        | .ok db' => .ok (db', sess, .redirect "/auth/login" 302)
        | .error _ =>
          .ok (db, sess, .render "auth/register.html"
                ["User " ++ username ++ " is already registered."])
      | some e => .ok (db, sess, .render "auth/register.html" [e])

/-- `auth.login`, POST branch (`flaskr/auth.py`).  Looks the username up,
checks the password hash, and on success clears the session and stores the
user's id; on failure flashes the fixed message and leaves the session
alone. -/
def login_post (check : String → String → Bool) (db : DB) (sess : Session)
    (form : List (String × String)) : Except Nat (DB × Session × Response) :=
  match formGet form "username" with
  | .error s => .error s
  | .ok username =>
    match formGet form "password" with
    | .error s => .error s
    | .ok password =>
      match findUserByName db username with
      | none => .ok (db, sess, .render "auth/login.html" ["Incorrect username."])
      | some user =>
        if check user.password password then
          .ok (db, ⟨some user.id⟩, .redirect "/" 302)
        else
          .ok (db, sess, .render "auth/login.html" ["Incorrect password."])

/-- `auth.load_logged_in_user` (`flaskr/auth.py`): resolves the current
user from the session, `none` when no id is stored or the id no longer
resolves. -/
def load_logged_in_user (db : DB) (sess : Session) : Option UserRow :=
  match sess.user_id with
  | none => none
  | some uid => findUserById db uid

/-- `auth.logout`: clears the session and redirects to the index. -/
def logout (_sess : Session) : Session × Response :=
  (⟨none⟩, .redirect "/" 302)

/-- `auth.login_required` (`flaskr/auth.py`): the wrapped view receives the
request's keyword arguments `args` and may read the resolved current user;
an anonymous caller is redirected to the login page instead. -/
def login_required {α : Type} (view : UserRow → α → Response)
    (g_user : Option UserRow) (args : α) : Response :=
  match g_user with
  | none => .redirect "/auth/login" 302
  | some u => view u args

/-- The `fetchone()` of
`SELECT p.id, title, body, created, author_id, username FROM post p JOIN user u ON p.author_id = u.id WHERE p.id = ?`. -/
def fetch_post_with_user (db : DB) (id : Nat) : Option PostWithUser :=
  match db.posts.find? (fun p => p.id = id) with
  | none => none
  | some p =>
    match findUserById db p.author_id with
    | none => none
    | some u => some ⟨p.id, p.title, p.body, p.created, p.author_id, u.username⟩

/-- `blog.get_post` (`flaskr/blog.py`): `abort(404)` when the joined fetch
finds nothing, `abort(403)` when `check_author` is set and the current
user is not the author, otherwise the joined row. -/
def get_post (db : DB) (g_user : UserRow) (id : Nat) (check_author : Bool) :
    Except Nat PostWithUser :=
  match fetch_post_with_user db id with
  | none => .error 404
  | some post =>
    if check_author ∧ post.author_id ≠ g_user.id then .error 403
    else .ok post

/-- The whole join of `index`'s query before ordering, in store-native
(table) order. -/
def joinAll (db : DB) : List PostWithUser :=
  db.posts.filterMap (fun p =>
    (findUserById db p.author_id).map
      (fun u => ⟨p.id, p.title, p.body, p.created, p.author_id, u.username⟩))

/-- `ORDER BY created DESC`: most recent first. -/
def createdDesc (a b : PostWithUser) : Prop := b.created ≤ a.created

instance : DecidableRel createdDesc := fun a b => Nat.decLe b.created a.created

instance : IsTotal PostWithUser createdDesc :=
  ⟨fun a b => Nat.le_total b.created a.created⟩

instance : IsTrans PostWithUser createdDesc :=
  ⟨fun _ _ _ hab hbc => Nat.le_trans hbc hab⟩

/-- `blog.index` (`flaskr/blog.py`): the full join ordered by `created`
descending (a stable sort, keeping store-native order among ties). -/
def index_posts (db : DB) : List PostWithUser :=
  List.insertionSort createdDesc (joinAll db)

/-- `INSERT INTO post (title, body, author_id) VALUES (?, ?, ?)` plus
`commit()`; `id` and `created` are store-assigned. -/
def insertPost (db : DB) (title body : String) (author_id : Nat) : DB :=
  { db with
    posts := db.posts ++
      [⟨nextId (db.posts.map (fun p => p.id)), title, body, db.now, author_id⟩] }

/-- `blog.create`, POST branch (`flaskr/blog.py`).  On an empty title the
source assigns `error = 'Title is required.'` but never calls
`flash(error)`, so the form is re-rendered with no flashed message; a
non-empty title is inserted with the current user as author. -/
def create_post (db : DB) (g_user : UserRow)
    (form : List (String × String)) : Except Nat (DB × Response) :=
  match formGet form "title" with
  | .error s => .error s
  | .ok title =>
    match formGet form "body" with
    | .error s => .error s
    | .ok body =>
      if title = "" then
        .ok (db, .render "blog/create.html" [])
      else
        .ok (insertPost db title body g_user.id, .redirect "/" 302)

/-- `UPDATE post SET title = ?, body = ? WHERE id = ?` plus `commit()`. -/
def updatePostRow (db : DB) (id : Nat) (title body : String) : DB :=
  { db with
    posts := db.posts.map (fun p =>
      if p.id = id then { p with title := title, body := body } else p) }

/-- `blog.update`, POST branch (`flaskr/blog.py`): fetch with ownership
check, validate the title (here the error is flashed), then update in
place and redirect. -/
def update_post (db : DB) (g_user : UserRow) (id : Nat)
    (form : List (String × String)) : Except Nat (DB × Response) :=
  match get_post db g_user id true with
  | .error s => .error s
  | .ok _post =>
    match formGet form "title" with
    | .error s => .error s
    | .ok title =>
      match formGet form "body" with
      | .error s => .error s
      | .ok body =>
        if title = "" then
          .ok (db, .render "blog/update.html" ["Title is required."])
        else
          .ok (updatePostRow db id title body, .redirect "/" 302)

/-- `blog.delete` (`flaskr/blog.py`): fetch with ownership check, then
`DELETE FROM post WHERE id = ?` and redirect to the index. -/
def delete_post (db : DB) (g_user : UserRow) (id : Nat) :
    Except Nat (DB × Response) :=
  match get_post db g_user id true with
  | .error s => .error s
  | .ok _post =>
    .ok ({ db with posts := db.posts.filter (fun p => ¬ p.id = id) },
         .redirect "/" 302)

/-- Well-formedness the store's constraints guarantee: primary keys are
unique in each table and usernames are unique. -/
def DB.WF (db : DB) : Prop :=
  db.users.Pairwise (fun a b => a.id ≠ b.id) ∧
  db.users.Pairwise (fun a b => a.username ≠ b.username) ∧
  db.posts.Pairwise (fun a b => a.id ≠ b.id)

/-! ## Helper lemmas -/

/-- `find?` returns exactly the element `a` when `a` is in the list,
satisfies the predicate, and is the only element doing so. -/
theorem find_unique_eq_some {α : Type} (p : α → Bool) (a : α) :
    ∀ l : List α, a ∈ l → p a = true →
      (∀ b ∈ l, p b = true → b = a) → l.find? p = some a := by
  intro l
  induction l with
  | nil => intro h; cases h
  | cons b t ih =>
    intro ha hpa huniq
    by_cases hb : p b = true
    · have hba : b = a := huniq b (List.mem_cons_self _ _) hb
      rw [List.find?_cons_of_pos _ hb, hba]
    · have hne : a ≠ b := fun h => hb (h ▸ hpa)
      have hat : a ∈ t := by
        rcases List.mem_cons.mp ha with h | h
        · exact absurd h hne
        · exact h
      rw [List.find?_cons_of_neg _ hb]
      exact ih hat hpa (fun c hc hpc => huniq c (List.mem_cons_of_mem _ hc) hpc)

/-- In a list whose keys are pairwise distinct, two members with equal
keys are the same element. -/
theorem mem_unique_of_pairwise_ne {α β : Type} (key : α → β) {l : List α}
    (hl : l.Pairwise (fun a b => key a ≠ key b)) {a b : α}
    (ha : a ∈ l) (hb : b ∈ l) (hk : key a = key b) : a = b := by
  by_contra hne
  have hsymm : Symmetric (fun a b : α => key a ≠ key b) :=
    fun x y h e => h e.symm
  exact (hl.forall hsymm ha hb hne) hk

/-! ## Claim theorems -/

/-- C2: the authorization guard `login_required` redirects an anonymous
caller to the login page without invoking the wrapped view (the outcome is
independent of the view), and with a resolved current user it invokes the
view with its arguments and returns its result unchanged. -/
theorem login_required_spec {α : Type} (view view' : UserRow → α → Response)
    (args : α) :
    (login_required view none args = Response.redirect "/auth/login" 302
      ∧ login_required view none args = login_required view' none args)
    ∧ ∀ u : UserRow, login_required view (some u) args = view u args :=
  ⟨⟨rfl, rfl⟩, fun _ => rfl⟩

/-- C4: registration validation runs in a fixed order with the first
failure winning — empty username, then empty password, then the
duplicate check; on success the new user is persisted with the hashed
password and the session is left untouched (no login happens). -/
theorem register_post_validation_order
    (gen : String → String) (db : DB) (sess : Session)
    (form : List (String × String)) (un pw : String)
    (hun : form.lookup "username" = some un)
    (hpw : form.lookup "password" = some pw) :
    (un = "" → register_post gen db sess form =
      .ok (db, sess, .render "auth/register.html" ["Username is required."]))
    ∧ (un ≠ "" → pw = "" → register_post gen db sess form =
      .ok (db, sess, .render "auth/register.html" ["Password is required."]))
    ∧ (un ≠ "" → pw ≠ "" → (∀ u ∈ db.users, u.username ≠ un) →
      register_post gen db sess form =
        .ok ({ db with users := db.users ++
                 [⟨nextId (db.users.map (fun u => u.id)), un, gen pw⟩] },
             sess, .redirect "/auth/login" 302)) := by
  refine ⟨?_, ?_, ?_⟩
  · intro h
    subst h
    simp [register_post, formGet, hun, hpw]
  · intro hu hp
    subst hp
    simp [register_post, formGet, hun, hpw, hu]
  · intro hu hp hfresh
    have hany : db.users.any (fun u => u.username = un) = false := by
      simp only [List.any_eq_false, decide_eq_true_eq]
      exact hfresh
    simp [register_post, formGet, hun, hpw, hu, hp, insertUser, hany]

/-- C4 witness: registering with an empty username yields the
missing-username error and leaves the store untouched. -/
theorem register_post_validation_order_witness :
    register_post (fun p => String.append "h:" p) ⟨[], [], 0⟩ ⟨none⟩
      [("username", ""), ("password", "pw")] =
      .ok (⟨[], [], 0⟩, ⟨none⟩,
        .render "auth/register.html" ["Username is required."]) :=
  (register_post_validation_order (fun p => String.append "h:" p)
    ⟨[], [], 0⟩ ⟨none⟩ [("username", ""), ("password", "pw")]
    "" "pw" rfl rfl).1 rfl

/-- C3: a registration attempt with a username already in the user table
produces the duplicate-username message and returns the store exactly
unchanged — no row inserted, no row modified. -/
theorem register_post_duplicate
    (gen : String → String) (db : DB) (sess : Session)
    (form : List (String × String)) (un pw : String)
    (hun : form.lookup "username" = some un)
    (hpw : form.lookup "password" = some pw)
    (hu : un ≠ "") (hp : pw ≠ "")
    (hdup : ∃ u ∈ db.users, u.username = un) :
    register_post gen db sess form =
      .ok (db, sess, .render "auth/register.html"
        ["User " ++ un ++ " is already registered."]) := by
  have hany : db.users.any (fun u => u.username = un) = true := by
    simp only [List.any_eq_true, decide_eq_true_eq]
    exact hdup
  simp [register_post, formGet, hun, hpw, hu, hp, insertUser, hany]

/-- C3 witness: re-registering `alice` fails with the duplicate message
and the user table is unchanged. -/
theorem register_post_duplicate_witness :
    register_post (fun p => String.append "h:" p)
      ⟨[⟨1, "alice", "h:pw"⟩], [], 0⟩ ⟨none⟩
      [("username", "alice"), ("password", "pw2")] =
      .ok (⟨[⟨1, "alice", "h:pw"⟩], [], 0⟩, ⟨none⟩,
        .render "auth/register.html"
          ["User " ++ "alice" ++ " is already registered."]) :=
  register_post_duplicate (fun p => String.append "h:" p)
    ⟨[⟨1, "alice", "h:pw"⟩], [], 0⟩ ⟨none⟩
    [("username", "alice"), ("password", "pw2")] "alice" "pw2"
    rfl rfl (by decide) (by decide)
    ⟨⟨1, "alice", "h:pw"⟩, by simp, rfl⟩

/-- C7 counterexample: a successful registration (`alice`/`pw` into an
empty store) redirects to `/auth/login` with Flask's default redirect
status 302, which is not the claimed 303. -/
theorem register_post_redirect_not_303 :
    register_post (fun p => String.append "h:" p) ⟨[], [], 0⟩ ⟨none⟩
      [("username", "alice"), ("password", "pw")] =
      .ok (⟨[⟨1, "alice", "h:pw"⟩], [], 0⟩, ⟨none⟩,
        .redirect "/auth/login" 302)
    ∧ (302 : Nat) ≠ 303 :=
  ⟨rfl, by decide⟩

/-- C7 amended: every successful registration POST (both fields
non-empty, username not taken) responds with a 302 redirect to
`/auth/login`. -/
theorem register_post_success_redirect
    (gen : String → String) (db : DB) (sess : Session)
    (form : List (String × String)) (un pw : String)
    (hun : form.lookup "username" = some un)
    (hpw : form.lookup "password" = some pw)
    (hu : un ≠ "") (hp : pw ≠ "")
    (hfresh : ∀ u ∈ db.users, u.username ≠ un) :
    ∃ db' : DB, register_post gen db sess form =
      .ok (db', sess, .redirect "/auth/login" 302) := by
  have hany : db.users.any (fun u => u.username = un) = false := by
    simp only [List.any_eq_false, decide_eq_true_eq]
    exact hfresh
  refine ⟨{ db with users := db.users ++
    [⟨nextId (db.users.map (fun u => u.id)), un, gen pw⟩] }, ?_⟩
  simp [register_post, formGet, hun, hpw, hu, hp, insertUser, hany]

/-- C7 amended witness: registering `alice` into an empty store yields a
302 redirect to the login page. -/
theorem register_post_success_redirect_witness :
    ∃ db' : DB, register_post (fun p => String.append "h:" p)
      ⟨[], [], 0⟩ ⟨none⟩ [("username", "alice"), ("password", "pw")] =
      .ok (db', ⟨none⟩, .redirect "/auth/login" 302) :=
  register_post_success_redirect (fun p => String.append "h:" p)
    ⟨[], [], 0⟩ ⟨none⟩ [("username", "alice"), ("password", "pw")]
    "alice" "pw" rfl rfl (by decide) (by decide) (by simp)

/-- C10: a POST form that lacks the `username` or `password` key makes
both the register and the login handler fail with a 400 lookup error
before any validation or store access; the missing-field message is
produced only when the key is present with an empty value. -/
theorem form_key_missing_400
    (gen : String → String) (check : String → String → Bool)
    (db : DB) (sess : Session) (form form2 : List (String × String))
    (hmiss : form.lookup "username" = none ∨ form.lookup "password" = none)
    (pw : String)
    (hu2 : form2.lookup "username" = some "")
    (hp2 : form2.lookup "password" = some pw) :
    (register_post gen db sess form = .error 400
      ∧ login_post check db sess form = .error 400)
    ∧ register_post gen db sess form2 =
        .ok (db, sess, .render "auth/register.html" ["Username is required."]) := by
  constructor
  · rcases hmiss with h | h
    · constructor <;> simp [register_post, login_post, formGet, h]
    · cases hu : form.lookup "username" with
      | none => constructor <;> simp [register_post, login_post, formGet, hu]
      | some v => constructor <;> simp [register_post, login_post, formGet, hu, h]
  · simp [register_post, formGet, hu2, hp2]

/-- C10 witness: a register POST without a `password` key is a 400, a
login POST without a `username` key is a 400, and an empty (but present)
username yields the validation message instead. -/
theorem form_key_missing_400_witness :
    (register_post (fun p => String.append "h:" p) ⟨[], [], 0⟩ ⟨none⟩
        [("username", "alice")] = .error 400
      ∧ login_post (fun h p => h == String.append "h:" p) ⟨[], [], 0⟩ ⟨none⟩
        [("username", "alice")] = .error 400)
    ∧ register_post (fun p => String.append "h:" p) ⟨[], [], 0⟩ ⟨none⟩
        [("username", ""), ("password", "pw")] =
        .ok (⟨[], [], 0⟩, ⟨none⟩,
          .render "auth/register.html" ["Username is required."]) :=
  form_key_missing_400 (fun p => String.append "h:" p)
    (fun h p => h == String.append "h:" p) ⟨[], [], 0⟩ ⟨none⟩
    [("username", "alice")] [("username", ""), ("password", "pw")]
    (Or.inr rfl) "pw" rfl rfl

/-- C5 counterexample: with a session already holding user id 1, a login
attempt for the existing user `alice` with a non-verifying password
leaves the session unchanged, yet `load_logged_in_user` on that session
resolves to `alice`, not to none. -/
theorem login_post_bad_password_not_none :
    login_post (fun h p => h == String.append "h:" p)
      ⟨[⟨1, "alice", "h:pw"⟩], [], 0⟩ ⟨some 1⟩
      [("username", "alice"), ("password", "wrong")] =
      .ok (⟨[⟨1, "alice", "h:pw"⟩], [], 0⟩, ⟨some 1⟩,
        .render "auth/login.html" ["Incorrect password."])
    ∧ load_logged_in_user ⟨[⟨1, "alice", "h:pw"⟩], [], 0⟩ ⟨some 1⟩ ≠ none :=
  ⟨rfl, by decide⟩

/-- C5 amended: a login POST naming an existing user whose stored hash
does not verify yields the fixed "Incorrect password." form redisplay and
leaves the session exactly as it was; in particular, when the session
held no user id, the current user still resolves to none afterwards. -/
theorem login_post_bad_password
    (check : String → String → Bool) (db : DB) (sess : Session)
    (form : List (String × String)) (un pw : String) (u : UserRow)
    (hun : form.lookup "username" = some un)
    (hpw : form.lookup "password" = some pw)
    (hfind : findUserByName db un = some u)
    (hbad : check u.password pw = false) :
    login_post check db sess form =
      .ok (db, sess, .render "auth/login.html" ["Incorrect password."])
    ∧ (sess.user_id = none → load_logged_in_user db sess = none) := by
  constructor
  · simp [login_post, formGet, hun, hpw, hfind, hbad]
  · intro h
    simp [load_logged_in_user, h]

/-- C5 amended witness: a bad-password login for `alice` on an empty
session redisplays the form and the session still resolves to no user. -/
theorem login_post_bad_password_witness :
    login_post (fun h p => h == String.append "h:" p)
      ⟨[⟨1, "alice", "h:pw"⟩], [], 0⟩ ⟨none⟩
      [("username", "alice"), ("password", "wrong")] =
      .ok (⟨[⟨1, "alice", "h:pw"⟩], [], 0⟩, ⟨none⟩,
        .render "auth/login.html" ["Incorrect password."])
    ∧ ((⟨none⟩ : Session).user_id = none →
        load_logged_in_user ⟨[⟨1, "alice", "h:pw"⟩], [], 0⟩ ⟨none⟩ = none) :=
  login_post_bad_password (fun h p => h == String.append "h:" p)
    ⟨[⟨1, "alice", "h:pw"⟩], [], 0⟩ ⟨none⟩
    [("username", "alice"), ("password", "wrong")] "alice" "wrong"
    ⟨1, "alice", "h:pw"⟩ rfl rfl rfl (by decide)

/-- C1: for every post id and resolved current user,
`get_post(id, check_author=true)` is a 404 when no post carries that id,
a 403 when the post exists but the current user is not its author, and
returns the post joined with the author's username when the current user
is the author. -/
theorem get_post_spec (db : DB) (u : UserRow) (id : Nat) (hwf : db.WF) :
    ((∀ p ∈ db.posts, p.id ≠ id) → get_post db u id true = .error 404)
    ∧ ∀ p ∈ db.posts, p.id = id →
        ∀ a ∈ db.users, a.id = p.author_id →
          ((p.author_id ≠ u.id → get_post db u id true = .error 403)
           ∧ (p.author_id = u.id → get_post db u id true =
                .ok ⟨p.id, p.title, p.body, p.created, p.author_id, a.username⟩)) := by
  obtain ⟨hu_ids, _hu_names, hp_ids⟩ := hwf
  constructor
  · intro hnone
    have hfind : db.posts.find? (fun p => p.id = id) = none := by
      rw [List.find?_eq_none]
      intro p hp
      simpa using hnone p hp
    simp [get_post, fetch_post_with_user, hfind]
  · intro p hp hpid a ha haid
    have hfindp : db.posts.find? (fun q => q.id = id) = some p := by
      apply find_unique_eq_some _ _ _ hp (by simpa using hpid)
      intro c hc hcid
      refine mem_unique_of_pairwise_ne (fun x => x.id) hp_ids hc hp ?_
      simp only [decide_eq_true_eq] at hcid
      show c.id = p.id
      rw [hcid, hpid]
    have hfinda : findUserById db p.author_id = some a := by
      apply find_unique_eq_some _ _ _ ha (by simpa using haid)
      intro c hc hcid
      refine mem_unique_of_pairwise_ne (fun x => x.id) hu_ids hc ha ?_
      simp only [decide_eq_true_eq] at hcid
      show c.id = a.id
      rw [hcid, haid]
    constructor
    · intro hne
      simp [get_post, fetch_post_with_user, hfindp, hfinda, hne]
    · intro heq
      rw [heq] at hfinda
      simp [get_post, fetch_post_with_user, hfindp, hfinda, heq]

/-- C1 witness: `bob` (id 2) hitting post 1 authored by `alice` (id 1)
with the author check on gets a 403. -/
theorem get_post_spec_witness :
    get_post ⟨[⟨1, "alice", "h"⟩], [⟨1, "t", "b", 5, 1⟩], 0⟩
      ⟨2, "bob", "h2"⟩ 1 true = .error 403 :=
  ((get_post_spec ⟨[⟨1, "alice", "h"⟩], [⟨1, "t", "b", 5, 1⟩], 0⟩
      ⟨2, "bob", "h2"⟩ 1 (by refine ⟨?_, ?_, ?_⟩ <;> simp)).2
    ⟨1, "t", "b", 5, 1⟩ (by simp) rfl
    ⟨1, "alice", "h"⟩ (by simp) rfl).1 (by decide)

/-- C9: at the failing input — an authenticated POST with an empty
title — neither create nor update writes to the store; update flashes
the title-required error, but create re-renders its form with no flashed
message, because the source assigns `error` and never calls `flash`. -/
theorem empty_title_no_write_create_no_flash :
    create_post ⟨[⟨1, "alice", "h"⟩], [], 0⟩ ⟨1, "alice", "h"⟩
      [("title", ""), ("body", "x")] =
      .ok (⟨[⟨1, "alice", "h"⟩], [], 0⟩, .render "blog/create.html" [])
    ∧ update_post ⟨[⟨1, "alice", "h"⟩], [⟨1, "t", "b", 5, 1⟩], 0⟩
      ⟨1, "alice", "h"⟩ 1 [("title", ""), ("body", "x")] =
      .ok (⟨[⟨1, "alice", "h"⟩], [⟨1, "t", "b", 5, 1⟩], 0⟩,
        .render "blog/update.html" ["Title is required."]) :=
  ⟨rfl, rfl⟩

/-- C6: a successful update by the author overwrites only the title and
body of the target row — its id, created and author_id are kept, every
other post row is unchanged in place, and the user table is untouched. -/
theorem update_post_frame
    (db : DB) (u : UserRow) (id : Nat) (form : List (String × String))
    (t b : String) (post : PostWithUser)
    (hget : get_post db u id true = .ok post)
    (ht : form.lookup "title" = some t)
    (hb : form.lookup "body" = some b)
    (htne : t ≠ "") :
    ∃ db' : DB, update_post db u id form = .ok (db', .redirect "/" 302)
      ∧ db'.users = db.users
      ∧ db'.posts.length = db.posts.length
      ∧ ∀ (i : Nat) (q : PostRow), db.posts[i]? = some q →
          ∃ q' : PostRow, db'.posts[i]? = some q'
            ∧ q'.id = q.id ∧ q'.created = q.created ∧ q'.author_id = q.author_id
            ∧ (q.id ≠ id → q' = q)
            ∧ (q.id = id → q'.title = t ∧ q'.body = b) := by
  refine ⟨updatePostRow db id t b, ?_, rfl, ?_, ?_⟩
  · simp [update_post, hget, formGet, ht, hb, htne]
  · simp [updatePostRow]
  · intro i q hq
    refine ⟨if q.id = id then { q with title := t, body := b } else q, ?_, ?_, ?_, ?_, ?_, ?_⟩
    · simp [updatePostRow, List.getElem?_map, hq]
    · by_cases hcase : q.id = id <;> simp [hcase]
    · by_cases hcase : q.id = id <;> simp [hcase]
    · by_cases hcase : q.id = id <;> simp [hcase]
    · intro hcase; simp [hcase]
    · intro hcase; simp [hcase]

/-- C6 witness: `alice` updating her post 1 among two posts changes only
that row's title and body. -/
theorem update_post_frame_witness :
    ∃ db' : DB, update_post
      ⟨[⟨1, "alice", "h"⟩], [⟨1, "t", "b", 5, 1⟩, ⟨2, "s", "c", 6, 1⟩], 9⟩
      ⟨1, "alice", "h"⟩ 1 [("title", "t2"), ("body", "b2")] =
      .ok (db', .redirect "/" 302)
      ∧ db'.users = [⟨1, "alice", "h"⟩]
      ∧ db'.posts.length =
          ([⟨1, "t", "b", 5, 1⟩, ⟨2, "s", "c", 6, 1⟩] : List PostRow).length
      ∧ ∀ (i : Nat) (q : PostRow),
          ([⟨1, "t", "b", 5, 1⟩, ⟨2, "s", "c", 6, 1⟩] : List PostRow)[i]? = some q →
          ∃ q' : PostRow, db'.posts[i]? = some q'
            ∧ q'.id = q.id ∧ q'.created = q.created ∧ q'.author_id = q.author_id
            ∧ (q.id ≠ 1 → q' = q)
            ∧ (q.id = 1 → q'.title = "t2" ∧ q'.body = "b2") :=
  update_post_frame
    ⟨[⟨1, "alice", "h"⟩], [⟨1, "t", "b", 5, 1⟩, ⟨2, "s", "c", 6, 1⟩], 9⟩
    ⟨1, "alice", "h"⟩ 1 [("title", "t2"), ("body", "b2")] "t2" "b2"
    ⟨1, "t", "b", 5, 1, "alice"⟩ rfl rfl rfl (by decide)

/-- C8: the index listing is exactly the post–author join ordered by the
created timestamp descending; rows with equal timestamps keep their
store-native (table) order, so the listing is deterministic per store. -/
theorem index_posts_spec (db : DB) :
    List.Sorted createdDesc (index_posts db)
    ∧ (index_posts db).Perm (joinAll db)
    ∧ ∀ k : Nat, (index_posts db).filter (fun x => x.created = k)
        = (joinAll db).filter (fun x => x.created = k) := by
  refine ⟨List.sorted_insertionSort _ _, List.perm_insertionSort _ _, fun k => ?_⟩
  have hperm : ((index_posts db).filter (fun x => decide (x.created = k))).Perm
      ((joinAll db).filter (fun x => decide (x.created = k))) :=
    (List.perm_insertionSort createdDesc (joinAll db)).filter _
  have hmem : ∀ x ∈ (joinAll db).filter (fun x => decide (x.created = k)),
      x.created = k := by
    intro x hx
    simpa using (List.mem_filter.mp hx).2
  have hpair : ((joinAll db).filter
      (fun x => decide (x.created = k))).Pairwise createdDesc := by
    apply List.pairwise_of_forall_mem_list
    intro a ha c hc
    show c.created ≤ a.created
    rw [hmem a ha, hmem c hc]
  have hsub : List.Sublist
      ((joinAll db).filter (fun x => decide (x.created = k)))
      (index_posts db) :=
    List.sublist_insertionSort hpair (List.filter_sublist _)
  have hself : ((joinAll db).filter (fun x => decide (x.created = k))).filter
      (fun x => decide (x.created = k)) =
      (joinAll db).filter (fun x => decide (x.created = k)) :=
    List.filter_eq_self.mpr (fun a ha => by simpa using hmem a ha)
  have hsub2 : List.Sublist
      ((joinAll db).filter (fun x => decide (x.created = k)))
      ((index_posts db).filter (fun x => decide (x.created = k))) := by
    have := hsub.filter (fun x => decide (x.created = k))
    rwa [hself] at this
  exact (hsub2.eq_of_length hperm.length_eq.symm).symm
